import Mathlib

/-!
Verification of the `medium-tcp-broken-pipe` repository: a Go backend
(`server.go`) that sleeps 10 seconds and then streams a 900,000,000-byte
payload through `text/template`, deployed behind an nginx reverse proxy
(`nginx.conf`) whose proxy timeouts are 2 seconds, built by a Dockerfile
that exposes port 8080 and starts the binary with `--port 8080`.

The Go code is embedded shallowly: bytes are `Nat`s below 256, the
handler body becomes a function from its environment (the outcome of the
single network write) to a trace of observable events, and the
configuration files become plain records.
-/

namespace BrokenPipe

/-! ## Constants from `server.go` -/

/-- `size := 900 * 1000 * 1000` (server.go line 17). -/
def payloadSize : Nat := 900 * 1000 * 1000

/-- `time.Sleep(time.Second * 10)` (server.go line 13): the handler delay in seconds. -/
def handlerDelaySec : Nat := 10

/-- `ReadTimeout: 10 * time.Minute` (server.go line 32), in seconds. -/
def serverReadTimeoutSec : Nat := 10 * 60

/-- `WriteTimeout: 10 * time.Minute` (server.go line 33), in seconds. -/
def serverWriteTimeoutSec : Nat := 10 * 60

/-! ## Byte buffers -/

/-- Go's `make([]byte, n)`: a byte slice of length `n`, zero-initialized
(the Go specification guarantees the zero value for each element). -/
def makeBytes (n : Nat) : List Nat := List.replicate n 0

/-! ## A model of Go's `text/template`

`text/template` is standard-library code, outside this repository.  What
the handler relies on is its documented lexing behaviour: template source
is scanned for the left action delimiter `{{` (bytes 123, 123); text
before, between and after actions is emitted verbatim by `Execute`, and
only the parts between delimiters are parsed as actions.  A source with
no `{{` at all is therefore a single verbatim text node, and `Execute`
writes it unchanged.  Sources that do contain the delimiter would invoke
the action grammar, which no code path of this repository reaches (the
handler's source is all zero bytes); the model maps them to a parse
error that no theorem below relies on. -/

/-- The byte of the character `{` . -/
def leftBraceByte : Nat := 123

/-- Whether a byte string contains the left action delimiter `{{`
(two adjacent `{` bytes), as `text/template`'s lexer scans for it. -/
def hasActionDelim : List Nat → Bool
  | [] => false
  | [_] => false
  | a :: b :: rest =>
      (a == leftBraceByte && b == leftBraceByte) || hasActionDelim (b :: rest)

/-- A parsed template: the name given to `template.New` and, for a
source without action delimiters, its single verbatim text node. -/
structure Template where
  name : String
  text : List Nat
deriving Repr, DecidableEq

/-- `template.New(name).Parse(src)`: a source with no `{{` parses to a
single verbatim text node; a source with `{{` enters the action grammar,
modelled as an error outcome that nothing below depends on. -/
def templateParse (name : String) (src : List Nat) : Except String Template :=
  if hasActionDelim src then
    Except.error "unclosed action"
  else
    Except.ok { name := name, text := src }

/-- `t.Execute(w, nil)` output for a delimiter-free template: the text
node is written verbatim. -/
def templateOutput (t : Template) : List Nat :=
  t.text

/-! ## The root handler (server.go lines 12-29) as an event trace -/

/-- The observable actions of one run of the root handler. -/
inductive Event where
  /-- `time.Sleep` of the given number of seconds. -/
  | sleep (seconds : Nat)
  /-- `make([]byte, n)`: allocation of the payload buffer. -/
  | buildBuffer (n : Nat)
  /-- One `log.Printf` line. -/
  | logLine (msg : String)
  /-- The response body as written to the connection by `t.Execute`. -/
  | writeBody (body : List Nat)
deriving Repr, DecidableEq

/-- The terminal outcome of one run of the root handler. -/
inductive Outcome where
  | success
  | parseFailed (e : String)
  | writeFailed (e : String)
deriving Repr, DecidableEq

/-- The handler body after the buffer is built (server.go lines 19-28),
as a trace: `pr` is the result of `template.Parse`, `wr` the error of
the single `t.Execute` write (`none` when the write succeeds). -/
def handlerCore (pr : Except String Template) (wr : Option String) : List Event :=
  match pr with
  | Except.error e => [Event.logLine ("error parsing template: " ++ e)]
  | Except.ok t =>
      match wr with
      | some e => [Event.logLine ("error writing: " ++ e)]
      | none => [Event.writeBody (templateOutput t)]

/-- The terminal outcome for given parse and write results. -/
def handlerOutcome (pr : Except String Template) (wr : Option String) : Outcome :=
  match pr with
  | Except.error e => Outcome.parseFailed e
  | Except.ok _ =>
      match wr with
      | some e => Outcome.writeFailed e
      | none => Outcome.success

/-- The whole root handler (server.go lines 12-29): sleep 10 seconds,
build the 900,000,000-byte buffer, parse it as a template, execute into
the response writer.  `wr` is the environment: the error, if any, that
the network write returns. -/
def rootHandler (wr : Option String) : List Event :=
  Event.sleep handlerDelaySec ::
  Event.buildBuffer payloadSize ::
  handlerCore (templateParse "page" (makeBytes payloadSize)) wr

/-- An incoming HTTP request as the handler could observe it. -/
structure Request where
  method : String
  path : String
  body : List Nat
deriving Repr, DecidableEq

/-- The handler closure bound by `mux.HandleFunc("/", ...)` receives the
request `r` but never reads it (server.go line 12: `r` is unused). -/
def serveRequest (_req : Request) (wr : Option String) : List Event :=
  rootHandler wr

/-- Number of `log.Printf` lines in a trace. -/
def countLogLines (tr : List Event) : Nat :=
  (tr.filter (fun e => match e with | Event.logLine _ => true | _ => false)).length

/-- The response body a trace wrote, if any. -/
def writtenBody (tr : List Event) : Option (List Nat) :=
  match tr.filterMap (fun e => match e with | Event.writeBody b => some b | _ => none) with
  | [b] => some b
  | _ => none

/-! ## Routing (server.go line 11-12)

Go strings are byte strings; request paths and mux patterns are modelled
as `List Char`. -/

/-- The patterns registered on the `http.NewServeMux`: only `"/"`
(server.go line 12). -/
def registeredPatterns : List (List Char) := [['/']]

/-- Whether a pattern ends in `/` (a rooted-subtree pattern in Go's
`ServeMux`). -/
def endsWithSlash (pat : List Char) : Bool :=
  pat.getLast? == some '/'

/-- Go `ServeMux` path matching: a pattern ending in `/` matches every
path it prefixes; otherwise the match is exact.  The pattern `"/"`
matches every path.  The request method plays no part. -/
def patternMatches (pat path : List Char) : Bool :=
  if endsWithSlash pat then pat.isPrefixOf path else pat == path

/-- Dispatch on the mux: `some 0` (the root handler) when some
registered pattern matches the path, `none` otherwise.  `HandleFunc`
patterns carry no method, so the method argument is never consulted. -/
def muxDispatch (_method : String) (path : List Char) : Option Nat :=
  if registeredPatterns.any (fun p => patternMatches p path) then some 0 else none

/-! ## `nginx.conf` -/

/-- One `proxy_set_header` directive. -/
structure HeaderDirective where
  header : String
  value : String
deriving Repr, DecidableEq

/-- The `location /` block of `nginx.conf` (lines 10-20). -/
structure ProxyLocation where
  setHeaders : List HeaderDirective
  readTimeoutSec : Nat
  connectTimeoutSec : Nat
  sendTimeoutSec : Nat
  proxyPass : String
deriving Repr, DecidableEq

/-- `nginx.conf`, `location /`: the two `proxy_set_header` directives,
the three 2-second timeouts, and the upstream address. -/
def nginxRootLocation : ProxyLocation :=
  { setHeaders :=
      [ { header := "X-Forwarded-For", value := "$remote_addr" }
      , { header := "Host", value := "$http_host" } ]
  , readTimeoutSec := 2
  , connectTimeoutSec := 2
  , sendTimeoutSec := 2
  , proxyPass := "http://goservice:8080/" }

/-- nginx variable substitution for the two variables the config uses:
`$remote_addr` is the client's remote address, `$http_host` the Host
header of the incoming request. -/
def resolveNginxVar (remoteAddr httpHost : String) (v : String) : String :=
  if v == "$remote_addr" then remoteAddr
  else if v == "$http_host" then httpHost
  else v

/-- The headers the proxy sends upstream, for a client with the given
remote address and Host header: each `proxy_set_header` directive with
its variable resolved. -/
def forwardedHeaders (remoteAddr httpHost : String) : List (String × String) :=
  nginxRootLocation.setHeaders.map
    (fun d => (d.header, resolveNginxVar remoteAddr httpHost d.value))

/-! ## Dockerfile (src/unnamed/part_000) -/

/-- `EXPOSE 8080` (Dockerfile line 13). -/
def dockerExposedPort : Nat := 8080

/-- `ENTRYPOINT /go/bin/web-app --port 8080` (Dockerfile line 14):
the arguments the entrypoint passes to the binary. -/
def entrypointArgs : List String := ["--port", "8080"]

/-- The backend `http.Server` configuration (server.go lines 31-36).
`main` builds it from literals only: it reads no command-line argument
(the program never touches `os.Args` or the `flag` package), so the
configuration is the same function of every argument vector. -/
structure ServerConfig where
  readTimeoutSec : Nat
  writeTimeoutSec : Nat
  addr : String
deriving Repr, DecidableEq

/-- The server configuration `main` builds, as a function of the
process's command-line arguments, which it ignores. -/
def mainServerConfig (_osArgs : List String) : ServerConfig :=
  { readTimeoutSec := serverReadTimeoutSec
  , writeTimeoutSec := serverWriteTimeoutSec
  , addr := ":8080" }

/-! ## Proxy/backend timing

Modelled from the spec: nginx itself is not part of this repository's
sources, only its configuration is.  The spec's timing model
(section 8): the proxy's read timeout `T` terminates the upstream
connection once `T` seconds pass without data from the backend; the
backend sends its first byte only after the handler delay `D` and,
streaming continuously, finishes writing at `D + τ` where `τ` is the
payload transmission time. -/

/-- The result of one proxied request: either the full body arrives,
finishing at `D + τ`, or the proxy closed the connection at its read
timeout and the backend's write fails with a broken pipe. -/
inductive ReqResult where
  | completed (body : List Nat) (finishedAt : Nat)
  | brokenPipe (closedAt : Nat)
deriving Repr, DecidableEq

/-- The Go error string `t.Execute` returns when the peer closed the
connection. -/
def brokenPipeMsg : String := "write: broken pipe"

/-- Modelled from the spec: the proxy terminates the upstream connection
at time `T` exactly when the backend's first byte (at time `D`) has not
arrived by then. -/
def proxyTerminatesAt (T D : Nat) : Option Nat :=
  if T < D then some T else none

/-- Modelled from the spec: the error of the backend's single write, as
a function of the proxy read timeout `T` and handler delay `D`: a broken
pipe when the proxy closed first, no error otherwise. -/
def backendWriteError (T D : Nat) : Option String :=
  if T < D then some brokenPipeMsg else none

/-- Modelled from the spec: one proxied request end to end.  With
`T < D` the proxy closes at `T` and the backend's write breaks; with
`D ≤ T` the first byte arrives in time, the backend streams the
template output continuously (no further read-timeout window opens),
and the transfer completes at `D + τ`. -/
def requestOutcome (T D τ : Nat) : ReqResult :=
  if T < D then
    ReqResult.brokenPipe T
  else
    ReqResult.completed (makeBytes payloadSize) (D + τ)

/-! ## Lemmas: the payload buffer is all zeros and parses verbatim -/

/-- `make([]byte, n)` yields only zero bytes. -/
theorem makeBytes_all_zero (n : Nat) :
    (makeBytes n).all (fun b => b == 0) = true := by
  unfold makeBytes
  induction n with
  | zero => rfl
  | succ k ih => simp [List.replicate_succ, ih]

/-- A byte string of zero bytes contains no `{{` delimiter. -/
theorem hasActionDelim_of_all_zero :
    ∀ l : List Nat, l.all (fun b => b == 0) = true → hasActionDelim l = false := by
  intro l
  induction l with
  | nil => intro _; rfl
  | cons a t ih =>
    intro h
    rw [List.all_cons, Bool.and_eq_true] at h
    obtain ⟨ha, ht⟩ := h
    cases t with
    | nil => rfl
    | cons b r =>
      have hd : hasActionDelim (b :: r) = false := ih ht
      have hb : (b == 0) = true := by
        rw [List.all_cons, Bool.and_eq_true] at ht
        exact ht.1
      have ha0 : a = 0 := by simpa using ha
      have hb0 : b = 0 := by simpa using hb
      subst ha0
      subst hb0
      simp [hasActionDelim, leftBraceByte, hd]

/-- The handler's buffer contains no `{{` delimiter. -/
theorem hasActionDelim_makeBytes (n : Nat) : hasActionDelim (makeBytes n) = false :=
  hasActionDelim_of_all_zero _ (makeBytes_all_zero n)

/-- Parsing the zero buffer succeeds with a single verbatim text node. -/
theorem templateParse_makeBytes (name : String) (n : Nat) :
    templateParse name (makeBytes n) = Except.ok { name := name, text := makeBytes n } := by
  simp [templateParse, hasActionDelim_makeBytes]

/-- The handler trace when the write fails with error `e`. -/
theorem rootHandler_some (e : String) :
    rootHandler (some e) =
      [ Event.sleep handlerDelaySec
      , Event.buildBuffer payloadSize
      , Event.logLine ("error writing: " ++ e) ] := by
  unfold rootHandler
  rw [templateParse_makeBytes]
  rfl

/-- The handler trace when the write succeeds. -/
theorem rootHandler_none :
    rootHandler none =
      [ Event.sleep handlerDelaySec
      , Event.buildBuffer payloadSize
      , Event.writeBody (makeBytes payloadSize) ] := by
  unfold rootHandler
  rw [templateParse_makeBytes]
  rfl

/-- The buffer's length is the constant 900,000,000. -/
theorem makeBytes_payloadSize_length : (makeBytes payloadSize).length = 900000000 := by
  show (List.replicate payloadSize 0).length = 900000000
  rw [List.length_replicate]
  rfl

/-! ## The claims -/

/-- Claim C1: whenever the proxy timeout `T` (2 seconds in `nginx.conf`)
is below the backend delay `D` (10 seconds in `server.go`), the proxy
terminates the connection at `T`, before the backend finishes writing at
`D + τ`; the request ends in a broken pipe, the backend's `t.Execute`
returns a non-nil error, and the handler logs that write failure. -/
theorem c1_short_proxy_timeout_breaks_write (T D τ : Nat) (h : T < D) :
    proxyTerminatesAt T D = some T ∧
    T < D + τ ∧
    requestOutcome T D τ = ReqResult.brokenPipe T ∧
    backendWriteError T D = some brokenPipeMsg ∧
    Event.logLine ("error writing: " ++ brokenPipeMsg) ∈ rootHandler (backendWriteError T D) := by
  have hw : backendWriteError T D = some brokenPipeMsg := by
    simp [backendWriteError, h]
  refine ⟨by simp [proxyTerminatesAt, h], by omega, by simp [requestOutcome, h], hw, ?_⟩
  rw [hw, rootHandler_some]
  simp

/-- Claim C1, witnessed at the repository's own constants: the nginx
read timeout (2 s) against the handler delay (10 s), with a transmission
time of 90 s. -/
theorem c1_short_proxy_timeout_breaks_write_witness :
    nginxRootLocation.readTimeoutSec < handlerDelaySec ∧
    (proxyTerminatesAt nginxRootLocation.readTimeoutSec handlerDelaySec =
        some nginxRootLocation.readTimeoutSec ∧
      nginxRootLocation.readTimeoutSec < handlerDelaySec + 90 ∧
      requestOutcome nginxRootLocation.readTimeoutSec handlerDelaySec 90 =
        ReqResult.brokenPipe nginxRootLocation.readTimeoutSec ∧
      backendWriteError nginxRootLocation.readTimeoutSec handlerDelaySec = some brokenPipeMsg ∧
      Event.logLine ("error writing: " ++ brokenPipeMsg) ∈
        rootHandler (backendWriteError nginxRootLocation.readTimeoutSec handlerDelaySec)) :=
  ⟨by decide,
   c1_short_proxy_timeout_breaks_write nginxRootLocation.readTimeoutSec handlerDelaySec 90
     (by decide)⟩

/-- Claim C2, counterexample: a request whose write succeeds produces
zero log lines, not exactly one — the success path of the handler logs
nothing. -/
theorem c2_success_logs_nothing :
    countLogLines (rootHandler none) = 0 ∧ countLogLines (rootHandler none) ≠ 1 := by
  have h : countLogLines (rootHandler none) = 0 := by
    rw [rootHandler_none]; rfl
  exact ⟨h, by rw [h]; decide⟩

/-- Claim C2 as amended: per request the backend logs at most one line;
it logs exactly one line precisely when the outcome is a failure (a
parse error or a write error), and zero lines on success. -/
theorem c2_one_log_iff_failure (pr : Except String Template) (wr : Option String) :
    countLogLines (handlerCore pr wr) ≤ 1 ∧
    (countLogLines (handlerCore pr wr) = 1 ↔ handlerOutcome pr wr ≠ Outcome.success) ∧
    countLogLines (rootHandler wr) = (if wr.isSome then 1 else 0) := by
  refine ⟨?_, ?_, ?_⟩
  · cases pr <;> cases wr <;> simp [handlerCore, countLogLines]
  · cases pr <;> cases wr <;> simp [handlerCore, handlerOutcome, countLogLines]
  · cases wr with
    | none => rw [rootHandler_none]; rfl
    | some e => rw [rootHandler_some]; rfl

/-- Claim C3: the handler first sleeps 10 seconds, then builds the large
payload, then writes it; a write-failure log appears exactly when the
write fails, and nothing follows the write or the log. -/
theorem c3_fixed_order_of_steps (wr : Option String) :
    (rootHandler wr).take 2 = [Event.sleep handlerDelaySec, Event.buildBuffer payloadSize] ∧
    handlerDelaySec = 10 ∧
    (rootHandler wr).drop 2 =
      (match wr with
        | some e => [Event.logLine ("error writing: " ++ e)]
        | none => [Event.writeBody (makeBytes payloadSize)]) ∧
    ((∃ e, Event.logLine ("error writing: " ++ e) ∈ rootHandler wr) ↔ wr.isSome = true) := by
  cases wr with
  | none =>
    refine ⟨by rw [rootHandler_none]; rfl, rfl, by rw [rootHandler_none]; rfl, ?_⟩
    rw [rootHandler_none]
    simp
  | some e =>
    refine ⟨by rw [rootHandler_some]; rfl, rfl, by rw [rootHandler_some]; rfl, ?_⟩
    rw [rootHandler_some]
    simp

/-- Claim C4: the handler has exactly two failure paths — template parse
failure and write failure — both terminal: the failure is logged as the
sole remaining event, nothing is retried, and no response body event
occurs on a failed run. -/
theorem c4_two_terminal_failure_paths (pr : Except String Template) (wr : Option String) :
    (handlerOutcome pr wr = Outcome.success ∨
      (∃ e, handlerOutcome pr wr = Outcome.parseFailed e) ∨
      (∃ e, handlerOutcome pr wr = Outcome.writeFailed e)) ∧
    (∀ e, handlerOutcome pr wr = Outcome.parseFailed e →
      handlerCore pr wr = [Event.logLine ("error parsing template: " ++ e)]) ∧
    (∀ e, handlerOutcome pr wr = Outcome.writeFailed e →
      handlerCore pr wr = [Event.logLine ("error writing: " ++ e)]) ∧
    (handlerOutcome pr wr ≠ Outcome.success → writtenBody (handlerCore pr wr) = none) := by
  cases pr <;> cases wr <;>
    simp [handlerOutcome, handlerCore, writtenBody]

/-- Claim C5: a successful request writes exactly the fixed-size body:
the buffer is allocated at 900 * 1000 * 1000 = 900,000,000 bytes, the
template parse-then-execute round trip reproduces it unchanged at full
length, and the handler's trace writes precisely that buffer. -/
theorem c5_success_body_is_fixed_size :
    (makeBytes payloadSize).length = 900000000 ∧
    templateParse "page" (makeBytes payloadSize) =
      Except.ok { name := "page", text := makeBytes payloadSize } ∧
    templateOutput { name := "page", text := makeBytes payloadSize } = makeBytes payloadSize ∧
    writtenBody (rootHandler none) = some (makeBytes payloadSize) := by
  refine ⟨makeBytes_payloadSize_length, templateParse_makeBytes _ _, rfl, ?_⟩
  rw [rootHandler_none]
  rfl

/-- Claim C6, counterexample: the mux dispatches the root handler for a
POST to `/` just as for a GET — the route is not GET-only. -/
theorem c6_root_route_serves_post :
    muxDispatch "POST" ['/'] = some 0 ∧ ("POST" : String) ≠ "GET" := by
  constructor
  · decide
  · decide

/-- Claim C6 as amended: the backend registers the single pattern `/`;
dispatch is independent of the HTTP method (GET and POST alike reach the
root handler), and the handler ignores the request entirely — method,
path and body included. -/
theorem c6_single_route_any_method (m₁ m₂ : String) (p : List Char) (r₁ r₂ : Request)
    (wr : Option String) :
    registeredPatterns = [['/']] ∧
    muxDispatch m₁ p = muxDispatch m₂ p ∧
    muxDispatch "GET" ['/'] = some 0 ∧
    muxDispatch "POST" ['/'] = muxDispatch "GET" ['/'] ∧
    serveRequest r₁ wr = serveRequest r₂ wr :=
  ⟨rfl, rfl, by decide, rfl, rfl⟩

/-- Claim C7: the proxy forwards `X-Forwarded-For` as the client's
remote address and `Host` as the request's Host header, and each of the
connect, read and send timeouts is 2 seconds. -/
theorem c7_forwarding_and_timeouts (remoteAddr httpHost : String) :
    forwardedHeaders remoteAddr httpHost =
      [("X-Forwarded-For", remoteAddr), ("Host", httpHost)] ∧
    nginxRootLocation.connectTimeoutSec = 2 ∧
    nginxRootLocation.readTimeoutSec = 2 ∧
    nginxRootLocation.sendTimeoutSec = 2 :=
  ⟨rfl, rfl, rfl, rfl⟩

/-- Claim C8: when the proxy timeout `T` exceeds the backend delay `D`
plus the payload transmission time `τ`, the request completes (at
`D + τ`) and the client receives the full 900,000,000-byte payload. -/
theorem c8_long_proxy_timeout_completes (T D τ : Nat) (h : D + τ < T) :
    requestOutcome T D τ = ReqResult.completed (makeBytes payloadSize) (D + τ) ∧
    (makeBytes payloadSize).length = 900000000 := by
  have hT : ¬ T < D := by omega
  exact ⟨by simp [requestOutcome, hT], makeBytes_payloadSize_length⟩

/-- Claim C8, witnessed at a 600-second proxy timeout (the 10-minute
timeout the backend itself uses) against the 10-second delay and a
30-second transmission time. -/
theorem c8_long_proxy_timeout_completes_witness :
    handlerDelaySec + 30 < serverReadTimeoutSec ∧
    (requestOutcome serverReadTimeoutSec handlerDelaySec 30 =
        ReqResult.completed (makeBytes payloadSize) (handlerDelaySec + 30) ∧
      (makeBytes payloadSize).length = 900000000) :=
  ⟨by decide,
   c8_long_proxy_timeout_completes serverReadTimeoutSec handlerDelaySec 30 (by decide)⟩

/-- Claim C9: the backend's listen address is the fixed constant
`":8080"` whatever the command-line arguments are — including the
`--port 8080` the Dockerfile's entrypoint passes — and the image exposes
port 8080. -/
theorem c9_listen_addr_fixed (args : List String) :
    (mainServerConfig args).addr = ":8080" ∧
    mainServerConfig args = mainServerConfig entrypointArgs ∧
    entrypointArgs = ["--port", "8080"] ∧
    dockerExposedPort = 8080 :=
  ⟨rfl, rfl, rfl, rfl⟩

/-- Claim C10: every byte the successful request writes is the zero
byte: `make([]byte, n)` zero-initializes, the all-zero source contains
no `\x7b\x7b` action delimiter, parsing it succeeds verbatim, and the
executed output is the unchanged buffer. -/
theorem c10_body_all_zero_roundtrip :
    (makeBytes payloadSize).all (fun b => b == 0) = true ∧
    hasActionDelim (makeBytes payloadSize) = false ∧
    templateParse "page" (makeBytes payloadSize) =
      Except.ok { name := "page", text := makeBytes payloadSize } ∧
    writtenBody (rootHandler none) = some (makeBytes payloadSize) :=
  ⟨makeBytes_all_zero _, hasActionDelim_makeBytes _, templateParse_makeBytes _ _,
   by rw [rootHandler_none]; rfl⟩

end BrokenPipe
